import Mathlib

/-!
Verification of the equipment communication and result-ingestion layer of the
AnaliNet laboratory backend (`equipment_interface.py`, `result_handler.py`,
`result_processor.py`).  Python strings are embedded as `String` (reasoned
about through their character list `String.data`), Python `dict`s produced by
the result processors as structures, raised exceptions as `Option`/`Except`
`none`/`error` values, and the process-wide connection registry as an
association list with Python-`dict` update semantics.
-/

namespace AnaliNet

/-! ## Python string primitives

`splitChar` models Python `str.split(sep)` on character lists (`''.split(s) = ['']`,
separators at the ends produce empty pieces).  `stripWhile` models Python
`str.strip(chars)`: it removes the matching characters from both ends. -/

def splitChar (sep : Char) : List Char → List (List Char)
  | [] => [[]]
  | c :: cs =>
    let rest := splitChar sep cs
    if c = sep then [] :: rest
    else
      match rest with
      | [] => [[c]]
      | piece :: pieces => (c :: piece) :: pieces

/-- Joining with a separator, modeling Python `sep.join(pieces)`. -/
def joinChar (sep : Char) : List (List Char) → List Char
  | [] => []
  | [piece] => piece
  | piece :: pieces => piece ++ sep :: joinChar sep pieces

def stripWhile (p : Char → Bool) (l : List Char) : List Char :=
  ((l.dropWhile p).reverse.dropWhile p).reverse

/-- Python `str.split` lifted to `String`. -/
def pySplit (sep : Char) (s : String) : List String :=
  (splitChar sep s.data).map String.mk

/-- Characters removed by Python's default `str.strip()`. -/
def isPyWS (c : Char) : Bool :=
  c = ' ' || c = '\t' || c = '\n' || c = '\r' || c = '\x0b' || c = '\x0c'

def pyStrip (s : String) : String := ⟨stripWhile isPyWS s.data⟩

/-- Characters removed by `raw_data.strip('\x02\x03\r\n')` in the ASTM processor. -/
def isAstmFrame (c : Char) : Bool :=
  c = '\x02' || c = '\x03' || c = '\r' || c = '\n'

def astmStrip (s : String) : String := ⟨stripWhile isAstmFrame s.data⟩

/-- `fields[i] if len(fields) > i else ''` — the guarded indexing idiom of the
ASTM processor. -/
def fieldOr (fields : List String) (i : Nat) : String :=
  if h : i < fields.length then fields.get ⟨i, h⟩ else ""

/-! ## Enumerations from `app/models/equipment.py` -/

inductive ProtocolType
  | HL7 | ASTM | DICOM | POCT1_A | LIS2_A2 | MODBUS | IHE_PCD | HL7_FHIR | ISO_11073 | PROPRIETARY
deriving DecidableEq

inductive ConnectionType
  | NETWORK | DB25 | USB | RS232 | RS485 | BLUETOOTH | ETHERNET | WIFI
deriving DecidableEq

inductive CommunicationType
  | UNIDIRECTIONAL | BIDIRECTIONAL | BIDIRECTIONAL_WITH_ACK
deriving DecidableEq

/-! ## Canonical decoded result (the dicts built by the three processors)

`test_name`, `units`, `reference_range`, `flags` and `status` are `Option`s
because not every processor puts the key into its result dict (ASTM omits
`test_name`, FHIR omits `flags`); `_save_results` reads them with
`result.get(key, '')`. -/

structure ResultLine where
  test_code : String
  test_name : Option String
  value : String
  units : Option String
  reference_range : Option String
  flags : Option String
  status : Option String
deriving DecidableEq

structure ProcessedResult where
  message_id : String
  message_datetime : String
  patient_id : String
  patient_name : String
  results : List ResultLine
deriving DecidableEq

/-! ## The python-hl7 message structure

`hl7.parse` is external to the repository: python-hl7 at version `>= 0.3.0`,
the versions providing `hl7.client.MLLPClient` and `Message.segment` /
`Message.segments` as the source uses them.  Those versions parse a message
(after stripping surrounding whitespace) into segments on `'\r'` and a
segment into fields on `'|'`, special-casing the MSH segment so that the
field separator itself is field 1 and the encoding characters field 2
(`msh[10]` is MSH-10, `msh[7]` MSH-7) — and they insert a *repetition*
layer below the field: `segment[i][j]` is the j-th `'~'`-separated
repetition of field i, with caret components one level deeper still.  An
ordinary componentized field such as `GLU^Glucose` is therefore a *single*
repetition: index 1 of it is an `IndexError`, and the repetition at index 0
stringifies back to the whole `GLU^Glucose`.  A field stringifies to its
repetitions joined with `'~'`.  `message.segment(name)` /
`message.segments(name)` raise `KeyError` when no segment matches, modelled
by `none`.

Two readers share the segment skeleton `HL7Msg` (a list of segments, each a
list of fields, each a list of strings): `parseHL7Rep` reads fields as
repetition lists — the faithful model under which
`HL7ResultProcessor.process_result` is evaluated — while `parseHL7` reads
fields as caret-component lists and serves only to state what the encoded
acknowledgment frame *contains*; at the field level, where the two agree
(the frames the code builds carry no `'~'`), that reading is accurate. -/

abbrev HL7Field := List String
abbrev HL7Segment := List HL7Field
abbrev HL7Msg := List HL7Segment

/-- Component-level reader of a field (split on `'^'`), used for the
acknowledgment-frame statements. -/
def parseHL7Field (s : String) : HL7Field := pySplit '^' s

/-- Repetition-level reader of a field (split on `'~'`), as python-hl7
indexes fields; each element is a repetition's full text. -/
def parseHL7RepField (s : String) : HL7Field := pySplit '~' s

def parseHL7Segment (l : List Char) : HL7Segment :=
  match l with
  | 'M' :: 'S' :: 'H' :: sep :: rest =>
    let seps := rest.takeWhile (fun c => c ≠ sep)
    let rem := (rest.dropWhile (fun c => c ≠ sep)).drop 1
    [["MSH"], [String.mk [sep]], [String.mk seps]] ++
      (splitChar sep rem).map (fun f => parseHL7Field ⟨f⟩)
  | _ => (splitChar '|' l).map (fun f => parseHL7Field ⟨f⟩)

/-- Faithful python-hl7 segment: fields as repetition lists, MSH
special-cased with the field separator as field 1. -/
def parseHL7SegmentRep (l : List Char) : HL7Segment :=
  match l with
  | 'M' :: 'S' :: 'H' :: sep :: rest =>
    let seps := rest.takeWhile (fun c => c ≠ sep)
    let rem := (rest.dropWhile (fun c => c ≠ sep)).drop 1
    [["MSH"], [String.mk [sep]], [String.mk seps]] ++
      (splitChar sep rem).map (fun f => parseHL7RepField ⟨f⟩)
  | _ => (splitChar '|' l).map (fun f => parseHL7RepField ⟨f⟩)

def parseHL7 (raw : String) : HL7Msg :=
  (splitChar '\r' (pyStrip raw).data).map parseHL7Segment

/-- Faithful `hl7.parse`: message → segments → fields → repetitions. -/
def parseHL7Rep (raw : String) : HL7Msg :=
  (splitChar '\r' (pyStrip raw).data).map parseHL7SegmentRep

/-- `str()` of a component-read field: components joined with `'^'`. -/
def fieldStr (f : HL7Field) : String := ⟨joinChar '^' (f.map String.data)⟩

/-- `str()` of a python-hl7 field: its repetitions joined with `'~'` (each
repetition stringifies to its own full text). -/
def fieldRepStr (f : HL7Field) : String := ⟨joinChar '~' (f.map String.data)⟩

def segMatch (name : String) (seg : HL7Segment) : Bool :=
  match seg with
  | f :: _ =>
    match f with
    | c :: _ => c = name
    | [] => false
  | [] => false

/-- All segments whose first field's first component equals `name`. -/
def segmentsOf (m : HL7Msg) (name : String) : List HL7Segment :=
  m.filter (segMatch name)

/-- `message.segments(name)`: raises `KeyError` (here `none`) when empty. -/
def segmentsE (m : HL7Msg) (name : String) : Option (List HL7Segment) :=
  match segmentsOf m name with
  | [] => none
  | l => some l

/-- `message.segment(name)`: first matching segment, `KeyError` when absent. -/
def segmentE (m : HL7Msg) (name : String) : Option HL7Segment :=
  (segmentsE m name).bind List.head?

/-- `seg[i][j]` as python-hl7 indexes it: repetition `j` of field `i`;
`none` models an `IndexError`. -/
def hl7ItemAt (seg : HL7Segment) (i j : Nat) : Option String := do
  let f ← seg.get? i
  f.get? j

/-- One iteration of the OBX loop of `HL7ResultProcessor.process_result`,
evaluated in source order over the repetition-indexed segment.  `obx[3][1]`
is the *second repetition* of field 3, so for the ordinary componentized
`code^name` field (a single repetition) it raises `IndexError` and the whole
message fails.  The `x if x else ''` guards are identity on the repetition
strings (an empty repetition already yields `''`). -/
def hl7ObxLine (obx : HL7Segment) : Option ResultLine := do
  let code ← hl7ItemAt obx 3 0
  let name ← hl7ItemAt obx 3 1
  let value ← hl7ItemAt obx 5 0
  let units ← hl7ItemAt obx 6 0
  let rr ← hl7ItemAt obx 7 0
  let flags ← hl7ItemAt obx 8 0
  let status ← hl7ItemAt obx 11 0
  pure { test_code := code, test_name := some name, value := value, units := some units,
         reference_range := some rr, flags := some flags, status := some status }

def hl7ObxLines : List HL7Segment → Option (List ResultLine)
  | [] => some []
  | obx :: rest => do
    let r ← hl7ObxLine obx
    let rs ← hl7ObxLines rest
    pure (r :: rs)

/-- `HL7ResultProcessor.process_result` over the faithful parse; any raised
error (`KeyError`, `IndexError`, …) becomes the catch-all `HTTPException`,
modelled as `none`. -/
def hl7ProcessResult (raw : String) : Option ProcessedResult := do
  let msg := parseHL7Rep raw
  let pid ← segmentE msg "PID"
  let patient_id ← hl7ItemAt pid 3 0
  let patient_name ← hl7ItemAt pid 5 0
  let obxs ← segmentsE msg "OBX"
  let results ← hl7ObxLines obxs
  let msh ← segmentE msg "MSH"
  let f10 ← msh.get? 10
  let f7 ← msh.get? 7
  pure { message_id := fieldRepStr f10, message_datetime := fieldRepStr f7,
         patient_id := patient_id, patient_name := patient_name, results := results }

/-! ## `ASTMResultProcessor.process_result` -/

structure ASTMState where
  header : Option (String × String)
  patient : Option (String × String)
  results : List ResultLine
deriving DecidableEq

/-- The `R` branch of the record loop, applied to `record.split('|')`. -/
def astmResultLine (fields : List String) : ResultLine :=
  { test_code := fieldOr fields 2, test_name := none, value := fieldOr fields 3,
    units := some (fieldOr fields 4), reference_range := some (fieldOr fields 5),
    flags := some (fieldOr fields 6), status := some (fieldOr fields 8) }

/-- One iteration of the record loop (`if not record: continue`, dispatch on
`record[0]`).  `record[0]` on an empty record would be an `IndexError`
(`none`), but empty records are skipped first. -/
def astmRecordStep (st : ASTMState) (record : String) : Option ASTMState :=
  if record = "" then some st
  else do
    let rt ← record.data.head?
    let fields := pySplit '|' record
    if rt = 'H' then
      some { st with header := some (fieldOr fields 4, fieldOr fields 5) }
    else if rt = 'P' then
      some { st with patient := some (fieldOr fields 3, fieldOr fields 4) }
    else if rt = 'R' then
      some { st with results := st.results ++ [astmResultLine fields] }
    else
      some st

/-- `ASTMResultProcessor.process_result`.  `datetime.now().isoformat()` is the
explicit `now` argument. -/
def astmProcessResult (now : String) (raw : String) : Option ProcessedResult := do
  let records := pySplit '\r' (astmStrip raw)
  let st ← records.foldlM astmRecordStep ⟨none, none, []⟩
  pure { message_id := (st.header.map Prod.snd).getD "",
         message_datetime := now,
         patient_id := (st.patient.map Prod.fst).getD "",
         patient_name := (st.patient.map Prod.snd).getD "",
         results := st.results }

/-! ## `send_acknowledgment` of the three processors

Python lets `send_acknowledgment` return either `True` (a bool) or the built
acknowledgment message (a string — the HL7 and ASTM variants return the frame
they construct, despite the annotated `bool`); `PyAckValue` is that union. -/

inductive PyAckValue
  | pyBool (b : Bool)
  | pyStr (s : String)
deriving DecidableEq

/-- The string built by `HL7ResultProcessor.send_acknowledgment` when the
communication type is `BIDIRECTIONAL_WITH_ACK`.  `now` stands for
`datetime.now().strftime('%Y%m%d%H%M%S')`.  The second line of the source is
a plain (non-f) string, so the literal text `\x7bmessage_id\x7d` is appended,
not the message id. -/
def hl7AckString (mid now : String) : String :=
  "MSH|^~\\&|LIS|LAB|EQP|LAB|" ++ now ++ "||ACK|" ++ mid ++ "|P|2.5.1\r" ++
    "MSA|AA|\x7bmessage_id\x7d|Message received successfully\r"

def hl7SendAcknowledgment (comm : CommunicationType) (mid now : String) : PyAckValue :=
  if comm ≠ CommunicationType.BIDIRECTIONAL_WITH_ACK then .pyBool true
  else .pyStr (hl7AckString mid now)

def astmAckString (mid : String) : String :=
  "\x02H|\\^&|||LIS|LAB||" ++ mid ++ "||P|1\r\x03\r\n"

def astmSendAcknowledgment (comm : CommunicationType) (mid : String) : PyAckValue :=
  if comm ≠ CommunicationType.BIDIRECTIONAL_WITH_ACK then .pyBool true
  else .pyStr (astmAckString mid)

/-- `HL7FHIRResultProcessor.send_acknowledgment`.  The HTTP POST is modelled
by the oracle `post`, mapping the target URL and the message id carried in
the `MessageHeader` body to the response status code (`none` = network
failure, caught and turned into `False`). -/
def fhirSendAcknowledgment (comm : CommunicationType) (endpoint : String)
    (post : String → String → Option Nat) (mid : String) : PyAckValue :=
  if comm ≠ CommunicationType.BIDIRECTIONAL_WITH_ACK then .pyBool true
  else
    match post (endpoint ++ "/$process-message") mid with
    | some code => .pyBool (code = 200)
    | none => .pyBool false

/-! ## `ResultProcessorFactory.create_processor` -/

inductive Processor
  | hl7 (comm : CommunicationType)
  | astm (comm : CommunicationType)
  | fhir (comm : CommunicationType) (endpoint : String)
deriving DecidableEq

inductive FactoryError
  | unsupportedProtocol (p : ProtocolType)
  | missingEndpoint
deriving DecidableEq

/-- `create_processor`; `if not endpoint` treats both an absent and an empty
endpoint as missing. -/
def create_processor (protocol : ProtocolType) (comm : CommunicationType)
    (endpoint : Option String) : Except FactoryError Processor :=
  if protocol = ProtocolType.HL7 then .ok (.hl7 comm)
  else if protocol = ProtocolType.ASTM then .ok (.astm comm)
  else if protocol = ProtocolType.HL7_FHIR then
    match endpoint with
    | none => .error .missingEndpoint
    | some e => if e = "" then .error .missingEndpoint else .ok (.fhir comm e)
  else .error (.unsupportedProtocol protocol)

/-! ## `EquipmentManager` (`equipment_interface.py`)

`NetworkEquipment` and `SerialEquipment` instances are the two transport
variants; `active_connections` is a Python dict keyed by equipment id,
embedded as an association list whose update (`d[k] = v`) replaces the value
of an existing key in place and appends otherwise. -/

inductive EquipmentInterface
  | network (ip : String) (port : Nat) (protocol : ProtocolType)
  | serial (com_port : String) (baud_rate : Nat) (protocol : ProtocolType)
      (data_bits : Nat) (parity : String) (stop_bits : Nat)
deriving DecidableEq

/-- The connection config dict passed to `connect_equipment`.  `data_bits`,
`parity` and `stop_bits` are read with `config.get(key, default)`, hence
`Option`s. -/
structure ConnectionConfig where
  connection_type : ConnectionType
  protocol : ProtocolType
  ip_address : String
  port : Nat
  com_port : String
  baud_rate : Nat
  data_bits : Option Nat
  parity : Option String
  stop_bits : Option Nat
deriving DecidableEq

/-- The interface construction of `connect_equipment`: `NETWORK` builds a
`NetworkEquipment`, every other connection type the `SerialEquipment`
(`else:  # DB25/Serial`). -/
def buildInterface (config : ConnectionConfig) : EquipmentInterface :=
  if config.connection_type = ConnectionType.NETWORK then
    .network config.ip_address config.port config.protocol
  else
    .serial config.com_port config.baud_rate config.protocol
      (config.data_bits.getD 8) (config.parity.getD "N") (config.stop_bits.getD 1)

abbrev Registry := List (Nat × EquipmentInterface)

/-- Python dict assignment `self.active_connections[equipment_id] = interface`. -/
def dictSet (k : Nat) (v : EquipmentInterface) (m : Registry) : Registry :=
  if m.any (fun p => p.1 = k) then
    m.map (fun p => if p.1 = k then (k, v) else p)
  else m ++ [(k, v)]

def dictLookup (k : Nat) (m : Registry) : Option EquipmentInterface :=
  (m.find? (fun p => p.1 = k)).map Prod.snd

/-- Number of registry entries for an equipment id. -/
def countKey (k : Nat) (m : Registry) : Nat :=
  (m.filter (fun p => p.1 = k)).length

inductive ConnectError
  | connectionFailed
deriving DecidableEq

/-- `EquipmentManager.connect_equipment`.  `transportOk` is the outcome of
`interface.connect()` (an exception there propagates and leaves the registry
untouched, because the dict assignment only happens after it). -/
def connect_equipment (st : Registry) (equipment_id : Nat) (config : ConnectionConfig)
    (transportOk : Bool) : Except ConnectError (Registry × EquipmentInterface) :=
  let interface := buildInterface config
  if transportOk then .ok (dictSet equipment_id interface st, interface)
  else .error .connectionFailed

/-! ## `ResultHandler` (`result_handler.py`) -/

/-- The columns of the `Equipment` ORM row that `ResultHandler` reads. -/
structure EquipmentRec where
  id : Nat
  protocol : ProtocolType
  communication_type : CommunicationType
  result_endpoint : Option String
  polling_interval : Option Nat
deriving DecidableEq

inductive StartListenError
  | equipmentNotFound
  | factoryError (e : FactoryError)
deriving DecidableEq

/-- `ResultHandler.start_listening`.  `eq?` is the database lookup for the
equipment id, `activeListeners` the keys of `_active_listeners`.  Returns
`some processor` when a listener task is started, `none` when the id was
already being listened to (only a warning is logged). -/
def start_listening (eq? : Option EquipmentRec) (activeListeners : List Nat)
    (equipment_id : Nat) : Except StartListenError (Option Processor) :=
  match eq? with
  | none => .error .equipmentNotFound
  | some e =>
    if equipment_id ∈ activeListeners then .ok none
    else
      match create_processor e.protocol e.communication_type e.result_endpoint with
      | .error fe => .error (.factoryError fe)
      | .ok p => .ok (some p)

/-- The protocol-specific request frame built by `_build_request_command`;
the constructors carry the data interpolated into the formatted strings. -/
inductive RequestFrame
  | hl7Qry (now : String) (patient_id : String)
  | astmQ (patient_id : String)
deriving DecidableEq

/-- `_build_request_command`: `none` models a raised error — the `ValueError`
for protocols without a request format, and for `HL7_FHIR` the `NameError`
from `json.dumps` (`result_handler.py` never imports `json`), which is
raised before any frame exists. -/
def build_request_command (protocol : ProtocolType) (patient_id : Option String)
    (now : String) : Option RequestFrame :=
  if protocol = ProtocolType.HL7 then some (.hl7Qry now (patient_id.getD ""))
  else if protocol = ProtocolType.ASTM then some (.astmQ (patient_id.getD ""))
  else none

inductive RequestError
  | equipmentNotFound
  | unsupportedOperation
deriving DecidableEq

/-- `ResultHandler.request_results`.  The second component of the result is
the list of frames handed to `send_command_to_equipment` (empty = nothing was
ever sent).  `sendOk` is the outcome of the send round trip; a failure there
(or a `ValueError` from `_build_request_command`) is caught and turned into a
`False` return. -/
def request_results (eq? : Option EquipmentRec) (patient_id : Option String)
    (now : String) (sendOk : Bool) : Except RequestError Bool × List RequestFrame :=
  match eq? with
  | none => (.error .equipmentNotFound, [])
  | some e =>
    if e.communication_type = CommunicationType.UNIDIRECTIONAL then
      (.error .unsupportedOperation, [])
    else
      match build_request_command e.protocol patient_id now with
      | none => (.ok false, [])
      | some frame => (if sendOk then .ok true else .ok false, [frame])

/-- A persisted `TestResult` row (`_save_results`); `raw_message` keeps the
full decoded batch (`str(processed_results)` audit copy). -/
structure TestResultRow where
  equipment_id : Nat
  patient_id : String
  test_code : String
  test_name : String
  result_value : String
  units : String
  reference_range : String
  flags : String
  status : String
  result_datetime : String
  raw_message : ProcessedResult
deriving DecidableEq

def saveRow (eqid : Nat) (d : ProcessedResult) (ts : String) (r : ResultLine) : TestResultRow :=
  { equipment_id := eqid, patient_id := d.patient_id, test_code := r.test_code,
    test_name := r.test_name.getD "", result_value := r.value, units := r.units.getD "",
    reference_range := r.reference_range.getD "", flags := r.flags.getD "",
    status := r.status.getD "", result_datetime := ts, raw_message := d }

/-- `ResultHandler._save_results`.  `fromiso` models
`datetime.fromisoformat` (`none` = `ValueError`, which rolls the batch back
and re-raises); it is invoked inside the row loop, so an empty batch commits
without parsing the timestamp. -/
def saveResults (fromiso : String → Option String) (eqid : Nat)
    (d : ProcessedResult) : Option (List TestResultRow) :=
  d.results.mapM (fun r => (fromiso d.message_datetime).map (fun ts => saveRow eqid d ts r))

/-- The loop's receive step,
`raw_data = await self.equipment_manager.receive_data_from_equipment(equipment.id)`
(result_handler.py:56).  `EquipmentManager` defines no such method — only
`connect_equipment`, `disconnect_equipment` and `send_command_to_equipment`
(the per-equipment `receive_data` lives on the interface objects, not the
manager) — so the attribute lookup raises `AttributeError` on every call,
before any data is read: the receive outcome is always `none`. -/
def receive_data_from_equipment (_registry : Registry) (_equipment_id : Nat) :
    Option String :=
  none

/-- One iteration of the `while True` body of `_listen_for_results`, inside
its `try`: receive, skip-if-empty, decode, persist, acknowledge.  `raw?` is
the outcome of the iteration's receive step (`none` models its
`AttributeError`); any later `none` is likewise an exception reaching the
same per-iteration `except` clause.  `sendAck` is the processor's (total)
`send_acknowledgment`, whose value the loop discards. -/
def listenIter (raw? : Option String) (decode : String → Option ProcessedResult)
    (fromiso : String → Option String) (sendAck : String → PyAckValue)
    (eqid : Nat) (comm : CommunicationType) : Option (List TestResultRow) := do
  let raw ← raw?
  if raw = "" then
    pure []
  else do
    let d ← decode raw
    let rows ← saveResults fromiso eqid d
    let _ack := if comm = CommunicationType.BIDIRECTIONAL_WITH_ACK
      then some (sendAck d.message_id) else none
    pure rows

inductive ListenerState
  | Listening
  | Idle
deriving DecidableEq

/-- A finite run of the listener loop; the k-th entry of the trace is the
outcome of iteration k's receive step.  An iteration whose body raises
(`none`) logs, sleeps and the loop continues — its rows are discarded, the
listener stays alive.  The final state reflects that only cancellation
(outside the trace) leaves the loop. -/
def listenRun (decode : String → Option ProcessedResult)
    (fromiso : String → Option String) (sendAck : String → PyAckValue)
    (eqid : Nat) (comm : CommunicationType) :
    List (Option String) → List TestResultRow × ListenerState
  | [] => ([], .Listening)
  | raw? :: rest =>
    let step := match listenIter raw? decode fromiso sendAck eqid comm with
      | some rows => rows
      | none => []
    let tail := listenRun decode fromiso sendAck eqid comm rest
    (step ++ tail.1, tail.2)

/-! ## Split/join lemmas for the character-level string model -/

lemma splitChar_ne_nil (sep : Char) : ∀ l : List Char, splitChar sep l ≠ [] := by
  intro l
  cases l with
  | nil => simp [splitChar]
  | cons c cs =>
    unfold splitChar
    by_cases h : c = sep
    · simp [h]
    · simp only [h, if_false]
      cases splitChar sep cs <;> simp

lemma joinChar_splitChar (sep : Char) : ∀ l : List Char, joinChar sep (splitChar sep l) = l := by
  intro l
  induction l with
  | nil => rfl
  | cons c cs ih =>
    unfold splitChar
    by_cases h : c = sep
    · subst h
      simp only [if_true]
      cases hs : splitChar c cs with
      | nil => exact absurd hs (splitChar_ne_nil c cs)
      | cons p ps =>
        rw [hs] at ih
        cases ps with
        | nil => simpa [joinChar] using ih
        | cons q qs => simpa [joinChar] using ih
    · simp only [h, if_false]
      cases hs : splitChar sep cs with
      | nil => exact absurd hs (splitChar_ne_nil sep cs)
      | cons p ps =>
        rw [hs] at ih
        cases ps with
        | nil => simpa [joinChar] using ih
        | cons q qs => simpa [joinChar] using ih

lemma fieldStr_parseHL7Field (s : String) : fieldStr (parseHL7Field s) = s := by
  unfold fieldStr parseHL7Field pySplit
  rw [List.map_map]
  have : (String.data ∘ String.mk) = id := rfl
  rw [this, List.map_id, joinChar_splitChar]

lemma splitChar_append_nosep (sep : Char) :
    ∀ (xs : List Char), (∀ c ∈ xs, c ≠ sep) →
      ∀ {ys : List Char} {p : List Char} {ps : List (List Char)},
        splitChar sep ys = p :: ps → splitChar sep (xs ++ ys) = (xs ++ p) :: ps := by
  intro xs
  induction xs with
  | nil => intro _ ys p ps h; simpa using h
  | cons c cs ih =>
    intro hno ys p ps h
    have hc : c ≠ sep := hno c (by simp)
    have hcs : ∀ a ∈ cs, a ≠ sep := fun a ha => hno a (by simp [ha])
    simp only [List.cons_append]
    unfold splitChar
    rw [ih hcs h]
    simp [hc]

lemma splitChar_sep_cons (sep : Char) (ys : List Char) :
    splitChar sep (sep :: ys) = [] :: splitChar sep ys := by
  simp [splitChar]

lemma splitChar_break (sep : Char) (xs ys : List Char) (h : ∀ c ∈ xs, c ≠ sep) :
    splitChar sep (xs ++ sep :: ys) = xs :: splitChar sep ys := by
  cases hs : splitChar sep ys with
  | nil => exact absurd hs (splitChar_ne_nil sep ys)
  | cons p ps =>
    have := @splitChar_append_nosep sep xs h (sep :: ys) [] (p :: ps)
      (by rw [splitChar_sep_cons, hs])
    simpa [hs] using this

lemma splitChar_nosep (sep : Char) (xs : List Char) (h : ∀ c ∈ xs, c ≠ sep) :
    splitChar sep xs = [xs] := by
  have := @splitChar_append_nosep sep xs h [] [] [] rfl
  simpa using this

lemma dropWhile_eq_self_of_head (p : Char → Bool) (l : List Char) (a : Char)
    (ha : l.head? = some a) (hpa : p a = false) : l.dropWhile p = l := by
  cases l with
  | nil => cases ha
  | cons x t =>
    injection ha with hx
    subst hx
    simp [List.dropWhile_cons, hpa]

lemma stripWhile_wrap (p : Char → Bool) (l : List Char) (a b c : Char)
    (ha : l.head? = some a) (hpa : p a = false)
    (hb : l.getLast? = some b) (hpb : p b = false) (hc : p c = true) :
    stripWhile p (l ++ [c]) = l := by
  unfold stripWhile
  have h1 : (l ++ [c]).dropWhile p = l ++ [c] := by
    apply dropWhile_eq_self_of_head p _ a _ hpa
    cases l with
    | nil => cases ha
    | cons x t => exact ha
  rw [h1]
  have h2 : (l ++ [c]).reverse = c :: l.reverse := by simp
  rw [h2, List.dropWhile_cons, hc]
  simp only [if_true]
  have h3 : l.reverse.dropWhile p = l.reverse := by
    apply dropWhile_eq_self_of_head p _ b _ hpb
    rw [List.head?_reverse]
    exact hb
  rw [h3, List.reverse_reverse]

/-! ## Registry helper lemmas -/

lemma filter_nil_of_any_false {α} (f : α → Bool) :
    ∀ m : List α, m.any f = false → m.filter f = [] := by
  intro m h
  induction m with
  | nil => rfl
  | cons a t ih =>
    simp only [List.any_cons, Bool.or_eq_false_iff] at h
    simp [List.filter_cons, h.1, ih h.2]

lemma any_of_countKey_eq_one (k : Nat) (m : Registry) (h : countKey k m = 1) :
    m.any (fun p => p.1 = k) = true := by
  cases hany : m.any (fun p => p.1 = k) with
  | true => rfl
  | false =>
    have : countKey k m = 0 := by
      unfold countKey
      rw [filter_nil_of_any_false _ m hany]
      rfl
    omega

lemma countKey_map_replace (k : Nat) (v : EquipmentInterface) :
    ∀ m : Registry,
      countKey k (m.map (fun p => if p.1 = k then (k, v) else p)) = countKey k m := by
  intro m
  induction m with
  | nil => rfl
  | cons p t ih =>
    by_cases hp : p.1 = k
    · unfold countKey
      rw [List.map_cons, if_pos hp]
      simp only [List.filter_cons, hp]
      simp only [countKey] at ih
      simp [ih]
    · unfold countKey
      rw [List.map_cons, if_neg hp]
      simp only [List.filter_cons, hp]
      simp only [countKey] at ih
      simp [hp, ih]

lemma countKey_dictSet (k : Nat) (v : EquipmentInterface) (m : Registry)
    (h : m.any (fun p => p.1 = k) = true) : countKey k (dictSet k v m) = countKey k m := by
  unfold dictSet
  rw [h]
  simp only [ite_true]
  exact countKey_map_replace k v m

lemma dictLookup_dictSet_self (k : Nat) (v : EquipmentInterface) :
    ∀ m : Registry, m.any (fun p => p.1 = k) = true →
      dictLookup k (dictSet k v m) = some v := by
  intro m h
  unfold dictSet
  rw [h]
  simp only [ite_true]
  induction m with
  | nil => simp at h
  | cons p t ih =>
    by_cases hp : p.1 = k
    · simp [dictLookup, List.find?, hp]
    · simp only [List.any_cons, Bool.or_eq_true] at h
      rcases h with h | h
      · simp [hp] at h
      · simpa [dictLookup, List.find?, hp] using ih h

/-! ## Concrete fixtures used by counterexamples and witnesses -/

def serialConfigA : ConnectionConfig :=
  { connection_type := ConnectionType.RS232, protocol := ProtocolType.ASTM,
    ip_address := "", port := 0, com_port := "COM1", baud_rate := 9600,
    data_bits := none, parity := none, stop_bits := none }

def serialConfigB : ConnectionConfig :=
  { connection_type := ConnectionType.RS232, protocol := ProtocolType.ASTM,
    ip_address := "", port := 0, com_port := "COM2", baud_rate := 9600,
    data_bits := none, parity := none, stop_bits := none }

def ethernetConfig : ConnectionConfig :=
  { connection_type := ConnectionType.ETHERNET, protocol := ProtocolType.HL7,
    ip_address := "10.0.0.5", port := 5000, com_port := "COM3", baud_rate := 19200,
    data_bits := some 7, parity := some "E", stop_bits := some 2 }

def dicomConfig : ConnectionConfig :=
  { connection_type := ConnectionType.NETWORK, protocol := ProtocolType.DICOM,
    ip_address := "10.0.0.9", port := 104, com_port := "", baud_rate := 0,
    data_bits := none, parity := none, stop_bits := none }

def dicomEquipment : EquipmentRec :=
  { id := 7, protocol := ProtocolType.DICOM,
    communication_type := CommunicationType.BIDIRECTIONAL,
    result_endpoint := none, polling_interval := none }

def uniEquipment : EquipmentRec :=
  { id := 3, protocol := ProtocolType.HL7,
    communication_type := CommunicationType.UNIDIRECTIONAL,
    result_endpoint := none, polling_interval := none }

/-! ## C1 — second `connect` for an id already connected -/

/-- C1 counterexample: with equipment 1 already registered (connected via
`serialConfigA`), a second `connect_equipment` for id 1 does not fail — there
is no `AlreadyConnectedError` anywhere in `EquipmentManager` — and the
registry entry is replaced by the connection built from the second config,
so the original `ActiveConnection` is not retained. -/
theorem c1_counterexample :
    connect_equipment [(1, buildInterface serialConfigA)] 1 serialConfigB true =
      .ok ([(1, buildInterface serialConfigB)], buildInterface serialConfigB) ∧
    buildInterface serialConfigB ≠ buildInterface serialConfigA := by
  exact ⟨rfl, by decide⟩

/-- C1 (amended): calling connect a second time for an equipment id that
already holds exactly one registry entry does not fail; it succeeds and
*replaces* the entry, so the registry afterwards holds exactly one
`ActiveConnection` for that id — the newly built one, not the original. -/
theorem c1_second_connect_replaces (st : Registry) (id : Nat) (config : ConnectionConfig)
    (h : countKey id st = 1) :
    connect_equipment st id config true =
      .ok (dictSet id (buildInterface config) st, buildInterface config) ∧
    countKey id (dictSet id (buildInterface config) st) = 1 ∧
    dictLookup id (dictSet id (buildInterface config) st) = some (buildInterface config) := by
  have hany := any_of_countKey_eq_one id st h
  refine ⟨rfl, ?_, dictLookup_dictSet_self id (buildInterface config) st hany⟩
  rw [countKey_dictSet id (buildInterface config) st hany, h]

/-- C1 witness: the amended theorem applied to a one-entry registry. -/
theorem c1_witness :
    countKey 1 [(1, buildInterface serialConfigA)] = 1 ∧
    (connect_equipment [(1, buildInterface serialConfigA)] 1 serialConfigB true =
        .ok (dictSet 1 (buildInterface serialConfigB) [(1, buildInterface serialConfigA)],
          buildInterface serialConfigB) ∧
      countKey 1 (dictSet 1 (buildInterface serialConfigB) [(1, buildInterface serialConfigA)]) = 1 ∧
      dictLookup 1 (dictSet 1 (buildInterface serialConfigB) [(1, buildInterface serialConfigA)]) =
        some (buildInterface serialConfigB)) :=
  ⟨by decide, c1_second_connect_replaces [(1, buildInterface serialConfigA)] 1 serialConfigB (by decide)⟩

/-! ## C3 — `request_results` on unidirectional equipment -/

/-- C3: for equipment whose communication mode is `UNIDIRECTIONAL`,
`request_results` always raises (the `ValueError` the spec calls
`UnsupportedOperationError`) before any request frame is built, and the list
of frames handed to the transport is empty — nothing is ever sent, for any
`patient_id` and any send outcome. -/
theorem c3_unidirectional_request_always_fails (e : EquipmentRec)
    (h : e.communication_type = CommunicationType.UNIDIRECTIONAL)
    (patient_id : Option String) (now : String) (sendOk : Bool) :
    request_results (some e) patient_id now sendOk = (.error .unsupportedOperation, []) := by
  simp [request_results, h]

/-- C3 witness at a concrete unidirectional equipment. -/
theorem c3_witness :
    uniEquipment.communication_type = CommunicationType.UNIDIRECTIONAL ∧
    request_results (some uniEquipment) (some "PT1") "20250101120000" true =
      (.error .unsupportedOperation, []) :=
  ⟨rfl, c3_unidirectional_request_always_fails uniEquipment rfl (some "PT1") "20250101120000" true⟩

/-! ## C9 — connection-type dispatch in `connect_equipment` -/

/-- C9: every connection type other than `NETWORK` (DB25, USB, RS232, RS485,
BLUETOOTH, ETHERNET, WIFI) takes the `else` branch and builds a
`SerialEquipment` from `com_port`, `baud_rate` and the `data_bits`/`parity`/
`stop_bits` settings (with defaults 8/`N`/1); only `NETWORK` builds a
`NetworkEquipment` from `ip_address` and `port`. -/
theorem c9_connection_type_dispatch (config : ConnectionConfig) :
    (config.connection_type ≠ ConnectionType.NETWORK →
      buildInterface config = .serial config.com_port config.baud_rate config.protocol
        (config.data_bits.getD 8) (config.parity.getD "N") (config.stop_bits.getD 1)) ∧
    (config.connection_type = ConnectionType.NETWORK →
      buildInterface config = .network config.ip_address config.port config.protocol) := by
  constructor <;> intro h <;> simp [buildInterface, h]

/-- C9 witness: an `ETHERNET` config yields the serial transport. -/
theorem c9_witness :
    ethernetConfig.connection_type ≠ ConnectionType.NETWORK ∧
    buildInterface ethernetConfig =
      .serial "COM3" 19200 ProtocolType.HL7 7 "E" 2 :=
  ⟨by decide, (c9_connection_type_dispatch ethernetConfig).1 (by decide)⟩

/-! ## C10 — `send_acknowledgment` without BIDIRECTIONAL_WITH_ACK -/

/-- C10: when the communication type is not `BIDIRECTIONAL_WITH_ACK`, each of
the three processors' `send_acknowledgment` returns `True` immediately: no
acknowledgment string is built (the result is a bool, not a message) and the
FHIR variant never performs its HTTP POST (the result is `True` for every
`post` oracle). -/
theorem c10_ack_skipped_when_not_required (comm : CommunicationType)
    (h : comm ≠ CommunicationType.BIDIRECTIONAL_WITH_ACK) (mid now endpoint : String)
    (post : String → String → Option Nat) :
    hl7SendAcknowledgment comm mid now = .pyBool true ∧
    astmSendAcknowledgment comm mid = .pyBool true ∧
    fhirSendAcknowledgment comm endpoint post mid = .pyBool true := by
  refine ⟨?_, ?_, ?_⟩ <;>
    simp [hl7SendAcknowledgment, astmSendAcknowledgment, fhirSendAcknowledgment, h]

/-- C10 witness at `UNIDIRECTIONAL` with a failing HTTP oracle. -/
theorem c10_witness :
    (CommunicationType.UNIDIRECTIONAL ≠ CommunicationType.BIDIRECTIONAL_WITH_ACK) ∧
    (hl7SendAcknowledgment .UNIDIRECTIONAL "MSG1" "TS" = .pyBool true ∧
      astmSendAcknowledgment .UNIDIRECTIONAL "MSG1" = .pyBool true ∧
      fhirSendAcknowledgment .UNIDIRECTIONAL "http://lis" (fun _ _ => none) "MSG1" = .pyBool true) :=
  ⟨by decide,
    c10_ack_skipped_when_not_required .UNIDIRECTIONAL (by decide) "MSG1" "TS" "http://lis"
      (fun _ _ => none)⟩

/-! ## C5 — unsupported protocols: where the failure actually happens -/

/-- C5 counterexample: a `DICOM` equipment connects without any protocol
check — `connect_equipment` succeeds and registers the connection — and the
`UnsupportedProtocolError` (`ValueError` of `create_processor`) is only
raised later, when `start_listening` builds the processor. -/
theorem c5_counterexample :
    connect_equipment [] 7 dicomConfig true =
      .ok ([(7, buildInterface dicomConfig)], buildInterface dicomConfig) ∧
    start_listening (some dicomEquipment) [] 7 =
      .error (.factoryError (.unsupportedProtocol ProtocolType.DICOM)) :=
  ⟨rfl, rfl⟩

/-- C5 (amended): for protocols outside HL7/ASTM/HL7-FHIR the failure is
deferred, not fail-fast: `connect_equipment` accepts any protocol and
registers the connection, while `ResultProcessorFactory.create_processor`
rejects the protocol, so the first `start_listening` for the equipment fails
with the unsupported-protocol error. -/
theorem c5_unsupported_protocol_deferred (p : ProtocolType)
    (h1 : p ≠ ProtocolType.HL7) (h2 : p ≠ ProtocolType.ASTM)
    (h3 : p ≠ ProtocolType.HL7_FHIR) :
    (∀ (st : Registry) (id : Nat) (config : ConnectionConfig), config.protocol = p →
      connect_equipment st id config true =
        .ok (dictSet id (buildInterface config) st, buildInterface config)) ∧
    (∀ comm endpoint, create_processor p comm endpoint =
      .error (.unsupportedProtocol p)) ∧
    (∀ (e : EquipmentRec) (listeners : List Nat) (id : Nat), e.protocol = p →
      id ∉ listeners →
      start_listening (some e) listeners id =
        .error (.factoryError (.unsupportedProtocol p))) := by
  refine ⟨fun st id config _ => rfl, fun comm endpoint => ?_, fun e listeners id he hid => ?_⟩
  · simp [create_processor, h1, h2, h3]
  · simp [start_listening, hid, he, create_processor, h1, h2, h3]

/-- C5 witness: the amended theorem applied at `DICOM`. -/
theorem c5_witness :
    (dicomConfig.protocol = ProtocolType.DICOM ∧
      connect_equipment [] 7 dicomConfig true =
        .ok (dictSet 7 (buildInterface dicomConfig) [], buildInterface dicomConfig)) ∧
    create_processor ProtocolType.DICOM CommunicationType.BIDIRECTIONAL none =
      .error (.unsupportedProtocol ProtocolType.DICOM) ∧
    start_listening (some dicomEquipment) [] 7 =
      .error (.factoryError (.unsupportedProtocol ProtocolType.DICOM)) :=
  ⟨⟨rfl, (c5_unsupported_protocol_deferred ProtocolType.DICOM (by decide) (by decide)
      (by decide)).1 [] 7 dicomConfig rfl⟩,
    (c5_unsupported_protocol_deferred ProtocolType.DICOM (by decide) (by decide)
      (by decide)).2.1 CommunicationType.BIDIRECTIONAL none,
    (c5_unsupported_protocol_deferred ProtocolType.DICOM (by decide) (by decide)
      (by decide)).2.2 dicomEquipment [] 7 rfl (by decide)⟩

/-! ## C4 — the ASTM scenario input -/

/-- The ASTM scenario frame from the spec's testable properties. -/
def astmScenarioInput : String :=
  "\x02H|\\^&|||LIS|LAB||PT002||P|1\rP|1||PT002\rR|1|HGB|14.2|g/dL|12-16||F\r\x03\r\n"

/-- C4 counterexample: decoding the scenario input yields one ResultLine
whose status is the empty string, not `F`: the `R` record splits into only 8
fields, so the status read at index 8 falls back to `''` (the `F` sits at
index 7). -/
theorem c4_counterexample :
    (astmProcessResult "2025-01-01T00:00:00" astmScenarioInput).map
        (fun d => d.results.map (fun r => r.status)) = some [some ""] ∧
    (some "" : Option String) ≠ some "F" := by
  exact ⟨rfl, by decide⟩

/-- C4 (amended): the scenario input decodes to patient id `PT002` and
exactly one ResultLine with test code `HGB`, value `14.2`, units `g/dL` —
but status `''`, because the record has only 8 fields and the processor reads
status from index 8. -/
theorem c4_astm_scenario_decode (now : String) :
    astmProcessResult now astmScenarioInput =
      some { message_id := "LAB", message_datetime := now, patient_id := "PT002",
             patient_name := "",
             results := [{ test_code := "HGB", test_name := none, value := "14.2",
                           units := some "g/dL", reference_range := some "12-16",
                           flags := some "", status := some "" }] } := rfl

/-! ## C8 — ASTM out-of-bounds fields and decode totality -/

lemma astmRecordStep_isSome (st : ASTMState) (record : String) :
    (astmRecordStep st record).isSome = true := by
  unfold astmRecordStep
  by_cases h : record = ""
  · simp [h]
  · obtain ⟨l⟩ := record
    cases l with
    | nil => exact absurd rfl h
    | cons c cs =>
      simp only [h, if_false]
      by_cases h1 : c = 'H' <;> by_cases h2 : c = 'P' <;> by_cases h3 : c = 'R' <;>
        simp [h1, h2, h3, List.head?]

lemma astmFold_isSome :
    ∀ (records : List String) (st : ASTMState),
      (records.foldlM astmRecordStep st).isSome = true := by
  intro records
  induction records with
  | nil => intro st; rfl
  | cons r rs ih =>
    intro st
    rw [List.foldlM_cons]
    obtain ⟨st2, h2⟩ := Option.isSome_iff_exists.mp (astmRecordStep_isSome st r)
    rw [h2]
    exact ih st2

/-- C8: the ASTM processor is total — no input string can make it raise an
indexing error — and every field position read beyond a record's actual
number of fields yields the empty string, in particular the status of an `R`
record with at most 8 fields. -/
theorem c8_astm_defaults_out_of_bounds :
    (∀ now raw, (astmProcessResult now raw).isSome = true) ∧
    (∀ (fields : List String) (i : Nat), fields.length ≤ i → fieldOr fields i = "") ∧
    (∀ fields : List String, fields.length ≤ 8 →
      (astmResultLine fields).status = some "") := by
  refine ⟨fun now raw => ?_, fun fields i h => ?_, fun fields h => ?_⟩
  · obtain ⟨st, hst⟩ := Option.isSome_iff_exists.mp
      (astmFold_isSome (pySplit '\r' (astmStrip raw)) ⟨none, none, []⟩)
    simp [astmProcessResult, hst]
  · unfold fieldOr
    rw [dif_neg (by omega)]
  · unfold astmResultLine
    simp only [fieldOr]
    rw [dif_neg (by omega)]

/-- C8 witness: a truncated `R` record (2 fields) decodes with empty
attributes, and the processor accepts an arbitrary malformed frame. -/
theorem c8_witness :
    (astmProcessResult "T0" "\x02R|1\r\x03").isSome = true ∧
    fieldOr ["R", "1"] 5 = "" ∧
    (astmResultLine ["R", "1"]).status = some "" :=
  ⟨c8_astm_defaults_out_of_bounds.1 "T0" "\x02R|1\r\x03",
    c8_astm_defaults_out_of_bounds.2.1 ["R", "1"] 5 (by decide),
    c8_astm_defaults_out_of_bounds.2.2 ["R", "1"] (by decide)⟩

/-! ## C6 — what the listener loop actually does -/

/-- C6 (code bug): the loop's receive step always raises — `EquipmentManager`
has no `receive_data_from_equipment` method — so over any number of
iterations the listener persists nothing at all: no message, well formed or
not, is ever received, decoded or saved.  (The loop itself does stay
`Listening`, logging the error and retrying each iteration.) -/
theorem c6_receive_missing_never_persists (st : Registry) (eqid : Nat)
    (decode : String → Option ProcessedResult) (fromiso : String → Option String)
    (sendAck : String → PyAckValue) (comm : CommunicationType) (n : Nat) :
    receive_data_from_equipment st eqid = none ∧
    listenRun decode fromiso sendAck eqid comm
        (List.replicate n (receive_data_from_equipment st eqid)) = ([], .Listening) := by
  refine ⟨rfl, ?_⟩
  induction n with
  | zero => rfl
  | succ k ih =>
    simp only [receive_data_from_equipment] at ih ⊢
    rw [List.replicate_succ]
    simp [listenRun, listenIter, ih]

/-! ## C2 — what HL7 decode actually does on componentized OBX fields -/

/-- The HL7 scenario message from the spec's testable properties. -/
def hl7ScenarioInput : String :=
  "MSH|^~\\&|LIS|LAB|EQP|LAB|20250101120000||ORU^R01|MSG1|P|2.5.1\rPID|||PT001||Doe^John\rOBX|1|NM|GLU^Glucose||95|mg/dL|70-110|N|||F\r"

/-- C2 (code bug): `segment[i][j]` indexes repetitions, so an OBX whose
field 3 has no `'~'` — the ordinary componentized `code^name` form — makes
`obx[3][1]` raise, and `process_result` raises on exactly such messages: in
particular the spec's own scenario message, whose single OBX segment parses
with `GLU^Glucose` as the single repetition of field 3, decodes to `none`
(HTTPException) instead of one ResultLine per OBX. -/
theorem c2_hl7_componentized_obx_raises :
    (∀ (obx : HL7Segment) (f : HL7Field), obx.get? 3 = some f → f.length ≤ 1 →
      hl7ObxLine obx = none) ∧
    segmentsOf (parseHL7Rep hl7ScenarioInput) "OBX" =
      [[["OBX"], ["1"], ["NM"], ["GLU^Glucose"], [""], ["95"], ["mg/dL"],
        ["70-110"], ["N"], [""], [""], ["F"]]] ∧
    hl7ProcessResult hl7ScenarioInput = none := by
  refine ⟨?_, by decide, by decide⟩
  intro obx f h3 h1
  have h31 : hl7ItemAt obx 3 1 = none := by
    unfold hl7ItemAt
    rw [h3]
    exact List.get?_eq_none.mpr h1
  cases h30 : hl7ItemAt obx 3 0 with
  | none => simp [hl7ObxLine, h30]
  | some c => simp [hl7ObxLine, h30, h31]

/-- C2 witness: the scenario's OBX segment, whose field 3 is the single
repetition `GLU^Glucose`, makes the OBX loop raise. -/
theorem c2_witness :
    ([[["OBX"], ["1"], ["NM"], ["GLU^Glucose"], [""], ["95"], ["mg/dL"],
          ["70-110"], ["N"], [""], [""], ["F"]]] : List HL7Segment).head!.get? 3 =
        some ["GLU^Glucose"] ∧
    (["GLU^Glucose"] : HL7Field).length ≤ 1 ∧
    hl7ObxLine [["OBX"], ["1"], ["NM"], ["GLU^Glucose"], [""], ["95"], ["mg/dL"],
        ["70-110"], ["N"], [""], [""], ["F"]] = none :=
  ⟨by decide, by decide,
    c2_hl7_componentized_obx_raises.1
      [["OBX"], ["1"], ["NM"], ["GLU^Glucose"], [""], ["95"], ["mg/dL"],
        ["70-110"], ["N"], [""], [""], ["F"]]
      ["GLU^Glucose"] (by decide) (by decide)⟩

/-! ## C7 — the HL7 acknowledgment message -/

lemma parseHL7_hl7AckString (mid now : String)
    (hm1 : ∀ c ∈ mid.data, c ≠ '\r') (hm2 : ∀ c ∈ mid.data, c ≠ '|')
    (hn1 : ∀ c ∈ now.data, c ≠ '\r') (hn2 : ∀ c ∈ now.data, c ≠ '|') :
    parseHL7 (hl7AckString mid now) =
      [[["MSH"], ["|"], ["^~\\&"], ["LIS"], ["LAB"], ["EQP"], ["LAB"],
        parseHL7Field now, [""], ["ACK"], parseHL7Field mid, ["P"], ["2.5.1"]],
       [["MSA"], ["AA"], ["\x7bmessage_id\x7d"], ["Message received successfully"]]] := by
  have hdata : (hl7AckString mid now).data =
      (("MSH|^~\\&|LIS|LAB|EQP|LAB|" : String).data ++ (now.data ++
        (("||ACK|" : String).data ++ (mid.data ++
          ("|P|2.5.1\rMSA|AA|\x7bmessage_id\x7d|Message received successfully" : String).data)))) ++
        ['\r'] := by
    simp only [hl7AckString, String.data_append, List.append_assoc]
    rfl
  have hstrip : (pyStrip (hl7AckString mid now)).data =
      ("MSH|^~\\&|LIS|LAB|EQP|LAB|" : String).data ++ (now.data ++
        (("||ACK|" : String).data ++ (mid.data ++
          ("|P|2.5.1\rMSA|AA|\x7bmessage_id\x7d|Message received successfully" : String).data))) := by
    show stripWhile isPyWS (hl7AckString mid now).data = _
    rw [hdata]
    apply stripWhile_wrap isPyWS _ 'M' 'y' '\r'
    · rfl
    · rfl
    · simp only [List.getLast?_append]
      rfl
    · rfl
    · rfl
  have hnoCR : ∀ c ∈ ("MSH|^~\\&|LIS|LAB|EQP|LAB|" : String).data ++ (now.data ++
      (("||ACK|" : String).data ++ (mid.data ++ ("|P|2.5.1" : String).data))), c ≠ '\r' := by
    intro c hc
    simp only [List.mem_append] at hc
    rcases hc with hc | hc | hc | hc | hc
    · exact (by decide : ∀ c ∈ ("MSH|^~\\&|LIS|LAB|EQP|LAB|" : String).data, c ≠ '\r') c hc
    · exact hn1 c hc
    · exact (by decide : ∀ c ∈ ("||ACK|" : String).data, c ≠ '\r') c hc
    · exact hm1 c hc
    · exact (by decide : ∀ c ∈ ("|P|2.5.1" : String).data, c ≠ '\r') c hc
  have hsegs : splitChar '\r' (pyStrip (hl7AckString mid now)).data =
      [("MSH|^~\\&|LIS|LAB|EQP|LAB|" : String).data ++ (now.data ++
          (("||ACK|" : String).data ++ (mid.data ++ ("|P|2.5.1" : String).data))),
        ("MSA|AA|\x7bmessage_id\x7d|Message received successfully" : String).data] := by
    rw [hstrip]
    have hre : ("MSH|^~\\&|LIS|LAB|EQP|LAB|" : String).data ++ (now.data ++
        (("||ACK|" : String).data ++ (mid.data ++
          ("|P|2.5.1\rMSA|AA|\x7bmessage_id\x7d|Message received successfully" : String).data))) =
        (("MSH|^~\\&|LIS|LAB|EQP|LAB|" : String).data ++ (now.data ++
          (("||ACK|" : String).data ++ (mid.data ++ ("|P|2.5.1" : String).data)))) ++
          ('\r' :: ("MSA|AA|\x7bmessage_id\x7d|Message received successfully" : String).data) := by
      simp only [List.append_assoc]
      rfl
    rw [hre, splitChar_break '\r' _ _ hnoCR,
      splitChar_nosep '\r' ("MSA|AA|\x7bmessage_id\x7d|Message received successfully" : String).data
        (by decide)]
  have hmsa : parseHL7Segment
      ("MSA|AA|\x7bmessage_id\x7d|Message received successfully" : String).data =
      [["MSA"], ["AA"], ["\x7bmessage_id\x7d"], ["Message received successfully"]] := by decide
  have hmsh : parseHL7Segment (("MSH|^~\\&|LIS|LAB|EQP|LAB|" : String).data ++ (now.data ++
      (("||ACK|" : String).data ++ (mid.data ++ ("|P|2.5.1" : String).data)))) =
      [["MSH"], ["|"], ["^~\\&"], ["LIS"], ["LAB"], ["EQP"], ["LAB"],
        parseHL7Field now, [""], ["ACK"], parseHL7Field mid, ["P"], ["2.5.1"]] := by
    show [["MSH"], ["|"], ["^~\\&"]] ++
        (splitChar '|' (("LIS|LAB|EQP|LAB|" : String).data ++ (now.data ++
          (("||ACK|" : String).data ++ (mid.data ++ ("|P|2.5.1" : String).data))))).map
          (fun f => parseHL7Field ⟨f⟩) = _
    have hd1 : ("LIS|LAB|EQP|LAB|" : String).data ++ (now.data ++
        (("||ACK|" : String).data ++ (mid.data ++ ("|P|2.5.1" : String).data))) =
        ("LIS" : String).data ++ '|' :: (("LAB" : String).data ++ '|' ::
          (("EQP" : String).data ++ '|' :: (("LAB" : String).data ++ '|' ::
            (now.data ++ '|' :: ('|' :: (("ACK" : String).data ++ '|' ::
              (mid.data ++ '|' :: (("P" : String).data ++ '|' ::
                ("2.5.1" : String).data)))))))) := by
      rfl
    rw [hd1,
      splitChar_break '|' ("LIS" : String).data _ (by decide),
      splitChar_break '|' ("LAB" : String).data _ (by decide),
      splitChar_break '|' ("EQP" : String).data _ (by decide),
      splitChar_break '|' ("LAB" : String).data _ (by decide),
      splitChar_break '|' now.data _ hn2,
      splitChar_sep_cons,
      splitChar_break '|' ("ACK" : String).data _ (by decide),
      splitChar_break '|' mid.data _ hm2,
      splitChar_break '|' ("P" : String).data _ (by decide),
      splitChar_nosep '|' ("2.5.1" : String).data (by decide)]
    rfl
  unfold parseHL7
  rw [hsegs, List.map_cons, List.map_cons, List.map_nil, hmsh, hmsa]

/-- C7: when the communication mode requires acknowledgments, the HL7
codec's `send_acknowledgment(m)` builds an `ACK`-type message (MSH field 9
is `ACK`) that echoes the message id back (MSH field 10 is `m`) and carries
acknowledgment code `AA` in its MSA segment (MSA field 1). -/
theorem c7_hl7_ack_echoes_id (mid now : String)
    (hm1 : ∀ c ∈ mid.data, c ≠ '\r') (hm2 : ∀ c ∈ mid.data, c ≠ '|')
    (hn1 : ∀ c ∈ now.data, c ≠ '\r') (hn2 : ∀ c ∈ now.data, c ≠ '|') :
    ∃ s, hl7SendAcknowledgment CommunicationType.BIDIRECTIONAL_WITH_ACK mid now = .pyStr s ∧
      ∃ msh msa, parseHL7 s = [msh, msa] ∧
        msh.get? 9 = some ["ACK"] ∧
        (msh.get? 10).map fieldStr = some mid ∧
        msa.get? 0 = some ["MSA"] ∧ msa.get? 1 = some ["AA"] := by
  refine ⟨hl7AckString mid now, rfl,
    [["MSH"], ["|"], ["^~\\&"], ["LIS"], ["LAB"], ["EQP"], ["LAB"],
      parseHL7Field now, [""], ["ACK"], parseHL7Field mid, ["P"], ["2.5.1"]],
    [["MSA"], ["AA"], ["\x7bmessage_id\x7d"], ["Message received successfully"]],
    parseHL7_hl7AckString mid now hm1 hm2 hn1 hn2, rfl, ?_, rfl, rfl⟩
  show some (fieldStr (parseHL7Field mid)) = some mid
  rw [fieldStr_parseHL7Field]

/-- C7 witness at a concrete message id and timestamp. -/
theorem c7_witness :
    (∀ c ∈ ("MSG1" : String).data, c ≠ '\r') ∧
    (∃ s, hl7SendAcknowledgment CommunicationType.BIDIRECTIONAL_WITH_ACK "MSG1" "20250101120000" =
        .pyStr s ∧
      ∃ msh msa, parseHL7 s = [msh, msa] ∧
        msh.get? 9 = some ["ACK"] ∧
        (msh.get? 10).map fieldStr = some "MSG1" ∧
        msa.get? 0 = some ["MSA"] ∧ msa.get? 1 = some ["AA"]) :=
  ⟨by decide,
    c7_hl7_ack_echoes_id "MSG1" "20250101120000" (by decide) (by decide) (by decide) (by decide)⟩

